import Mathlib

/-!
# Verification of the auto_apply application-attempt engine

Shallow embedding of the TypeScript sources of the `auto_apply` repository
(`src/playwrightApply.ts`, `src/autoApplyWorker.ts`, `src/supabaseClient.ts`).
Pure computations (job filtering, discovery post-processing, URL building)
are translated directly; the browser-dependent steps of `applyToJob`,
`searchJobs`, `handlePhoneInput` and the process signal handlers are
modelled by explicit environment records that enumerate the observable
outcomes of each page interaction (selector found / not found, indicator
present / absent, and so on), with the control flow of the source kept
branch for branch.
-/

/-! ## JavaScript string helpers

`jsToLower` models `String.prototype.toLowerCase`, `jsIncludes` models
`String.prototype.includes`, and `splitCommaTrim` models
`s.split(',').map(x => x.trim())`.  The inputs the engine feeds them are
plain ASCII, where these agree with the JS behaviour. -/

def jsToLower (s : String) : String := s.map Char.toLower

/-- Holds when `sub` occurs at the head of `l`. -/
def charsStartWith : List Char → List Char → Bool
  | [], _ => true
  | _ :: _, [] => false
  | a :: as, b :: bs => a == b && charsStartWith as bs

/-- Holds when `sub` occurs contiguously somewhere in `l`. -/
def charsContain (sub : List Char) : List Char → Bool
  | [] => charsStartWith sub []
  | c :: cs => charsStartWith sub (c :: cs) || charsContain sub cs

def jsIncludes (s sub : String) : Bool := charsContain sub.toList s.toList

def splitCommaTrim (s : String) : List String := (s.splitOn ",").map String.trim

/-! ## Data model

`JobSearchResult` is the posting record produced by discovery
(`playwrightApply.ts`, `searchJobs` extraction).  `AutoApplyConfig` carries
the user-profile fields the engine actually reads; optional / missing
fields of the JS object are modelled as the empty string, which is exactly
the falsy case of the `if (userConfig.field)` guards in the source. -/

structure JobSearchResult where
  title : String
  company : String
  location : String
  url : String
  description : String
  deriving Repr, DecidableEq

structure AutoApplyConfig where
  id : String
  full_name : String
  email : String
  phone : String
  country : String
  blacklisted_companies : String
  skip_keywords : String
  skip_security_clearance : Bool
  deriving Repr, DecidableEq

/-! ## Eligibility filter (`filterJobs`, playwrightApply.ts lines 162-195)

Each matcher bundles the truthiness guard of its `if (userConfig.x)` block
with the substring test performed inside the block. -/

/-- Source: `if (userConfig.blacklisted_companies) { const blacklisted = ...toLowerCase()
.split(',').map(trim); blacklisted.some(c => job.company.toLowerCase().includes(c)) }` -/
def blacklistedCompanyMatch (cfg : AutoApplyConfig) (job : JobSearchResult) : Bool :=
  cfg.blacklisted_companies != "" &&
    (splitCommaTrim (jsToLower cfg.blacklisted_companies)).any
      (fun company => jsIncludes (jsToLower job.company) company)

/-- Source: `if (userConfig.skip_keywords) { ... jobText = title + ' ' + company + ' ' +
description, lowercased; skipKeywords.some(k => jobText.includes(k)) }` -/
def skipKeywordMatch (cfg : AutoApplyConfig) (job : JobSearchResult) : Bool :=
  cfg.skip_keywords != "" &&
    (splitCommaTrim (jsToLower cfg.skip_keywords)).any
      (fun keyword =>
        jsIncludes (jsToLower (job.title ++ " " ++ job.company ++ " " ++ job.description)) keyword)

/-- The fixed clearance keyword list of `filterJobs`. -/
def securityKeywords : List String :=
  ["security clearance", "clearance", "secret", "top secret", "ts/sci"]

/-- Source: `if (userConfig.skip_security_clearance) { ... jobText = title + ' ' +
description, lowercased; securityKeywords.some(k => jobText.includes(k)) }` -/
def securityClearanceMatch (cfg : AutoApplyConfig) (job : JobSearchResult) : Bool :=
  cfg.skip_security_clearance &&
    securityKeywords.any
      (fun keyword => jsIncludes (jsToLower (job.title ++ " " ++ job.description)) keyword)

/-- The callback of `jobs.filter(job => ...)`: the source returns `false` from
the first matching exclusion block and `true` at the end. -/
def keepJob (job : JobSearchResult) (cfg : AutoApplyConfig) : Bool :=
  if blacklistedCompanyMatch cfg job then false
  else if skipKeywordMatch cfg job then false
  else if securityClearanceMatch cfg job then false
  else true

/-- Embeds `filterJobs(jobs, userConfig)`. -/
def filterJobs (jobs : List JobSearchResult) (cfg : AutoApplyConfig) : List JobSearchResult :=
  jobs.filter (fun job => keepJob job cfg)

/-! ## Discovery post-processing (`searchJobs`, playwrightApply.ts lines 142-147)

`results.filter((job, index, self) => index === self.findIndex(j => j.url ===
job.url))` keeps an element exactly when no earlier element of the array has
the same `url`; `jsUniqueByUrlAux` carries the list of earlier elements. -/

def jsUniqueByUrlAux : List JobSearchResult → List JobSearchResult → List JobSearchResult
  | _, [] => []
  | prev, j :: rest =>
    if prev.any (fun k => k.url == j.url) then jsUniqueByUrlAux (prev ++ [j]) rest
    else j :: jsUniqueByUrlAux (prev ++ [j]) rest

def jsUniqueByUrl (jobs : List JobSearchResult) : List JobSearchResult :=
  jsUniqueByUrlAux [] jobs

/-- Embeds `uniqueJobs.slice(0, 10)` applied after the dedup, as in the
`page.evaluate` callback of `searchJobs`. -/
def discoveryPostprocess (results : List JobSearchResult) : List JobSearchResult :=
  (jsUniqueByUrl results).take 10

/-! ## Attempt Ledger (`applied_jobs` table, supabaseClient.ts)

`AttemptRecord` is a row of `applied_jobs` (`user_id, job_title,
company_name, job_url, status, notes, error_message`); the `status` column
is constrained to `applied | error | skipped | duplicate` by the schema.
The ledger is the list of rows, appended by `logApplication`. -/

structure AttemptRecord where
  user_id : String
  job_title : String
  company_name : String
  job_url : String
  status : String
  notes : String
  error_message : String
  deriving Repr, DecidableEq

/-- Embeds `hasAppliedToJob(userId, jobUrl)` (supabaseClient.ts lines 50-69):
`SELECT id FROM applied_jobs WHERE user_id = userId AND job_url = jobUrl
LIMIT 1` and then `data.length > 0`.  Note: the query has **no** filter on
the `status` column. -/
def hasAppliedToJob (ledger : List AttemptRecord) (userId jobUrl : String) : Bool :=
  (ledger.filter (fun r => r.user_id == userId && r.job_url == jobUrl)).length > 0

/-- Embeds `logApplication(application)` (supabaseClient.ts lines 74-96): a plain
`INSERT` into `applied_jobs`, i.e. an append to the ledger. -/
def logApplication (ledger : List AttemptRecord) (record : AttemptRecord) :
    List AttemptRecord :=
  ledger ++ [record]

/-! ## Application Stage (`applyToJob`, playwrightApply.ts lines 200-336)

The page interactions of one attempt are modelled by `ApplyPageEnv`: each
field records the observable outcome of one bounded wait / query of the
source.  `validationErrorPresent` is the `.error, .form-error,
[aria-live="assertive"]` query that only the (uncalled) `improvedSubmit`
helper performs — `applyToJob` itself never reads it. -/

structure ApplyPageEnv where
  /-- Whether `page.goto(job.url)` wins the 30s race (else `Error('Navigation timeout')`). -/
  navigationSucceeds : Bool
  /-- Whether `waitForSelector('[data-testid="apply-button"], ...', 10s)` finds the control. -/
  applyButtonFound : Bool
  /-- Whether `waitForSelector('form, [data-testid="application-form"]', 10s)` succeeds. -/
  formAppears : Bool
  /-- Whether `fillApplicationForm(userConfig)` completes without rethrowing. -/
  fillSucceeds : Bool
  /-- Whether `page.$('button[type="submit"], ...')` is non-null. -/
  submitButtonFound : Bool
  /-- Whether `page.$('.success, .confirmation, [data-testid="success"]')` is non-null. -/
  successIndicatorPresent : Bool
  /-- Whether `page.$('.error, .form-error, [aria-live="assertive"]')` is non-null. -/
  validationErrorPresent : Bool
  /-- Whether `Date.now() - startTime > applicationTimeout` holds when the catch runs. -/
  attemptExceedsTimeout : Bool
  deriving Repr, DecidableEq

/-- Observable page side effects of one attempt, for the frame conditions of
the duplicate path. -/
inductive PageAction where
  | navigate (url : String)
  | clickApply
  | fillForm
  | clickSubmit
  deriving Repr, DecidableEq

/-- Result value returned by `applyToJob` (`ApplicationResult` in types.ts);
absent optional fields are the empty string. -/
structure ApplicationResult where
  success : Bool
  jobUrl : String
  jobTitle : String
  companyName : String
  status : String
  notes : String
  errorMessage : String
  deriving Repr, DecidableEq

/-- Terminal state of one attempt: the result returned to the caller, the
ledger after the attempt, and the page actions performed. -/
structure ApplyOutcome where
  result : ApplicationResult
  ledger : List AttemptRecord
  actions : List PageAction
  deriving Repr, DecidableEq

/-- The `catch` block of `applyToJob` (lines 307-335): overwrite the message
with the timeout classification when the 60s budget is exceeded, append one
`error` row via `logApplication`, and return the `error` result. -/
def applyCatch (job : JobSearchResult) (cfg : AutoApplyConfig) (env : ApplyPageEnv)
    (ledger : List AttemptRecord) (actions : List PageAction) (msg : String) :
    ApplyOutcome :=
  let finalMsg := if env.attemptExceedsTimeout then "Application timeout after 60000ms" else msg
  { result :=
      { success := false, jobUrl := job.url, jobTitle := job.title,
        companyName := job.company, status := "error", notes := "",
        errorMessage := finalMsg }
    ledger := logApplication ledger
      { user_id := cfg.id, job_title := job.title, company_name := job.company,
        job_url := job.url, status := "error", notes := "Failed to apply",
        error_message := finalMsg }
    actions := actions }

/-- Embeds `applyToJob(job, userConfig)`.  Each throwing step of the `try` block is
a branch whose failure side flows into `applyCatch`; the selector-timeout
messages of the driver library are abstracted by fixed descriptive strings
(the claims never inspect them). -/
def applyToJob (job : JobSearchResult) (cfg : AutoApplyConfig) (env : ApplyPageEnv)
    (ledger : List AttemptRecord) : ApplyOutcome :=
  if hasAppliedToJob ledger cfg.id job.url then
    { result :=
        { success := false, jobUrl := job.url, jobTitle := job.title,
          companyName := job.company, status := "duplicate",
          notes := "Already applied to this job", errorMessage := "" }
      ledger := ledger
      actions := [] }
  else if env.navigationSucceeds = false then
    applyCatch job cfg env ledger [PageAction.navigate job.url] "Navigation timeout"
  else if env.applyButtonFound = false then
    applyCatch job cfg env ledger [PageAction.navigate job.url]
      "Timeout waiting for apply button"
  else if env.formAppears = false then
    applyCatch job cfg env ledger [PageAction.navigate job.url, PageAction.clickApply]
      "No application form available"
  else if env.fillSucceeds = false then
    applyCatch job cfg env ledger
      [PageAction.navigate job.url, PageAction.clickApply, PageAction.fillForm]
      "Error filling application form"
  else if env.submitButtonFound = false then
    applyCatch job cfg env ledger
      [PageAction.navigate job.url, PageAction.clickApply, PageAction.fillForm]
      "Submit button not found"
  else if env.successIndicatorPresent then
    { result :=
        { success := true, jobUrl := job.url, jobTitle := job.title,
          companyName := job.company, status := "applied",
          notes := "Successfully applied", errorMessage := "" }
      ledger := logApplication ledger
        { user_id := cfg.id, job_title := job.title, company_name := job.company,
          job_url := job.url, status := "applied",
          notes := "Successfully applied via AutoTalent", error_message := "" }
      actions := [PageAction.navigate job.url, PageAction.clickApply,
        PageAction.fillForm, PageAction.clickSubmit] }
  else
    applyCatch job cfg env ledger
      [PageAction.navigate job.url, PageAction.clickApply, PageAction.fillForm,
        PageAction.clickSubmit]
      "No success indicator found after submission"

/-- Embeds `improvedSubmit()` (playwrightApply.ts lines 1510-1540): the only place
that queries the validation-error indicator after clicking submit.  It is
defined on the class but never invoked by any caller in the repository. -/
def improvedSubmit (env : ApplyPageEnv) : Bool :=
  if env.submitButtonFound then
    if env.validationErrorPresent then false else true
  else false

/-! ## Phone handling (`handlePhoneInput`, playwrightApply.ts lines 880-929)

The method takes no profile argument at all.  `PhonePageEnv.countryFlowWorks`
is the success of the `try` block (clicking `.iti__selected-flag` and the
`#iti-0__item-us-preferred` United States option); on failure the `catch`
fallback runs, which selects no country.  Both paths fill the same literal
`'415-555-2671'` into the first phone input when one exists (the random
generator `generateRandomUSPhoneNumber` is defined but its call is
commented out on both paths). -/

structure PhonePageEnv where
  countryFlowWorks : Bool
  phoneInputFound : Bool
  deriving Repr, DecidableEq

structure PhoneOutcome where
  selectedCountry : Option String
  filledPhone : Option String
  deriving Repr, DecidableEq

def handlePhoneInput (env : PhonePageEnv) : PhoneOutcome :=
  if env.countryFlowWorks then
    { selectedCountry := some "United States (+1)"
      filledPhone := if env.phoneInputFound then some "415-555-2671" else none }
  else
    { selectedCountry := none
      filledPhone := if env.phoneInputFound then some "415-555-2671" else none }

/-- The phone step of the field-population sequence: `fillAllFieldsWithAI`
invokes `await this.handlePhoneInput();` (line 1038) passing nothing from
`userConfig`. -/
def phoneFieldStep (_cfg : AutoApplyConfig) (env : PhonePageEnv) : PhoneOutcome :=
  handlePhoneInput env

/-! ## Discovery Stage (`searchJobs`, playwrightApply.ts lines 63-157)

`buildSearchUrl` is lines 69-74: the query string is built from the local
constants `searchTerms` and `location`, never from `userConfig`.
`SearchPageEnv` records the outcomes of the page interactions of the `try`
block; `searchJobsBody` is that block, an `Except` whose `error` case is a
thrown exception, and `searchJobs` wraps it in the `catch` that returns
`[]` — after the initial `if (!this.page) throw` guard. -/

def uriHexChars : List Char :=
  ['0', '1', '2', '3', '4', '5', '6', '7', '8', '9', 'A', 'B', 'C', 'D', 'E', 'F']

/-- Characters `encodeURIComponent` leaves unescaped. -/
def uriUnescaped (c : Char) : Bool :=
  c.isAlphanum || c = '-' || c = '_' || c = '.' || c = '!' || c = '~' ||
    c = '*' || c = Char.ofNat 39 || c = '(' || c = ')'

/-- Models `encodeURIComponent` for single-byte code points (the engine only applies
it to ASCII constants). -/
def encodeURIComponent (s : String) : String :=
  String.join (s.toList.map (fun c =>
    if uriUnescaped c then String.mk [c]
    else "%" ++ String.mk [uriHexChars.getD (c.toNat / 16) '0',
      uriHexChars.getD (c.toNat % 16) '0']))

/-- Source: `const searchTerms = 'software engineer developer programmer';` -/
def searchTerms : String := "software engineer developer programmer"

/-- Source: `const location = 'Remote';` -/
def searchLocation : String := "Remote"

/-- The `searchUrl` template literal of `searchJobs` (line 74); its
`userConfig` parameter is in scope but unused. -/
def buildSearchUrl (_userConfig : AutoApplyConfig) : String :=
  "https://jobs.workable.com/search?q=" ++ encodeURIComponent searchTerms ++
    "&location=" ++ encodeURIComponent searchLocation

structure SearchPageEnv where
  /-- Whether the `page.goto` of the search URL succeeds. -/
  gotoSucceeds : Bool
  /-- Whether `waitForSelector('[data-testid="job-card"]', 5s)` succeeds. -/
  cardTestIdAppears : Bool
  /-- Whether `waitForSelector('.job-card', 5s)` succeeds. -/
  cardClassAppears : Bool
  /-- Whether `waitForSelector('[class*="job"]', 5s)` succeeds. -/
  jobClassAppears : Bool
  /-- Whether `waitForSelector('a[href*="/jobs/"]', 5s)` succeeds. -/
  jobLinkAppears : Bool
  /-- Whether `page.evaluate(...)` (the extraction callback) completes. -/
  evalSucceeds : Bool
  /-- The `results` array the extraction callback collects before its dedup
  and slice. -/
  rawResults : List JobSearchResult
  deriving Repr, DecidableEq

/-- The `try` block of `searchJobs`: navigation, the four-deep selector
fallback chain (the innermost failure escapes to the outer catch), and the
extraction whose callback ends in the dedup-then-slice post-processing. -/
def searchJobsBody (env : SearchPageEnv) : Except String (List JobSearchResult) :=
  if env.gotoSucceeds = false then
    Except.error "goto failed"
  else if env.cardTestIdAppears || env.cardClassAppears ||
      env.jobClassAppears || env.jobLinkAppears then
    if env.evalSucceeds then Except.ok (discoveryPostprocess env.rawResults)
    else Except.error "evaluate failed"
  else
    Except.error "Timeout waiting for job listing selectors"

/-- Embeds `searchJobs(userConfig)`: the `if (!this.page) throw` guard, then the
`try` block with a `catch` that logs and returns `[]`.  `userConfig` is
never read. -/
def searchJobs (_userConfig : AutoApplyConfig) (pageInitialized : Bool)
    (env : SearchPageEnv) : Except String (List JobSearchResult) :=
  if pageInitialized = false then
    Except.error "Browser not initialized"
  else
    match searchJobsBody env with
    | Except.ok jobs => Except.ok jobs
    | Except.error _ => Except.ok []

/-! ## Worker shutdown (`autoApplyWorker.ts` lines 214-235)

`stopScheduler()` only logs (its comment notes `cron.schedule` has no stop
method); the `SIGINT` / `SIGTERM` handlers log, call `stopScheduler()`, and
call `process.exit(0)`.  Neither handler touches
`playwrightApplicator.cleanup()`, the only routine that closes the browser
(playwrightApply.ts lines 487-508 / 1807-1828). -/

inductive WorkerAction where
  | logInfo (msg : String)
  | closeBrowser
  | processExit (code : Nat)
  deriving Repr, DecidableEq

/-- Embeds the `stopScheduler()` body. -/
def stopScheduler : List WorkerAction :=
  [WorkerAction.logInfo "Stopping AutoTalent auto-apply scheduler"]

/-- The `process.on('SIGINT', ...)` handler body. -/
def sigintHandler : List WorkerAction :=
  [WorkerAction.logInfo "Received SIGINT, shutting down gracefully..."] ++
    stopScheduler ++ [WorkerAction.processExit 0]

/-- The `process.on('SIGTERM', ...)` handler body. -/
def sigtermHandler : List WorkerAction :=
  [WorkerAction.logInfo "Received SIGTERM, shutting down gracefully..."] ++
    stopScheduler ++ [WorkerAction.processExit 0]

/-- Whether the browser session is still open after running a sequence of
worker actions from a state where it was `open`: only `closeBrowser`
(i.e. `cleanup()`) closes it. -/
def browserOpenAfter (openAtStart : Bool) (actions : List WorkerAction) : Bool :=
  actions.foldl (fun b a => if a = WorkerAction.closeBrowser then false else b) openAtStart

/-! ## Concrete inputs for counterexamples and witnesses -/

def exampleUser : AutoApplyConfig :=
  { id := "u1", full_name := "Jane Roe", email := "jane@example.com",
    phone := "+49 30 1234567", country := "Germany",
    blacklisted_companies := "Acme, Globex", skip_keywords := "",
    skip_security_clearance := false }

def exampleUser2 : AutoApplyConfig :=
  { id := "u1", full_name := "Max Mustermann", email := "max@example.com",
    phone := "+44 20 7654321", country := "United Kingdom",
    blacklisted_companies := "", skip_keywords := "intern",
    skip_security_clearance := true }

def exampleJob : JobSearchResult :=
  { title := "Software Engineer", company := "Initech",
    location := "Remote", url := "https://jobs.workable.com/view/abc123",
    description := "" }

/-- Ledger row from a failed earlier attempt on `exampleJob` by `exampleUser`. -/
def recPriorError : AttemptRecord :=
  { user_id := "u1", job_title := "Software Engineer", company_name := "Initech",
    job_url := "https://jobs.workable.com/view/abc123", status := "error",
    notes := "Failed to apply", error_message := "Navigation timeout" }

/-- Ledger row from a successful earlier attempt on `exampleJob` by `exampleUser`. -/
def recPriorApplied : AttemptRecord :=
  { user_id := "u1", job_title := "Software Engineer", company_name := "Initech",
    job_url := "https://jobs.workable.com/view/abc123", status := "applied",
    notes := "Successfully applied via AutoTalent", error_message := "" }

/-- Page behaviour where every step of the attempt succeeds. -/
def envHappy : ApplyPageEnv :=
  { navigationSucceeds := true, applyButtonFound := true, formAppears := true,
    fillSucceeds := true, submitButtonFound := true,
    successIndicatorPresent := true, validationErrorPresent := false,
    attemptExceedsTimeout := false }

/-- Page behaviour where the form rejects the submission: a validation-error
indicator is shown and no success indicator ever appears. -/
def envValidationRejected : ApplyPageEnv :=
  { navigationSucceeds := true, applyButtonFound := true, formAppears := true,
    fillSucceeds := true, submitButtonFound := true,
    successIndicatorPresent := false, validationErrorPresent := true,
    attemptExceedsTimeout := false }

/-- Search-page behaviour where no listing container appears within any of
the four fallback selector timeouts. -/
def envSearchAllTimeouts : SearchPageEnv :=
  { gotoSucceeds := true, cardTestIdAppears := false, cardClassAppears := false,
    jobClassAppears := false, jobLinkAppears := false, evalSucceeds := true,
    rawResults := [] }

/-- Helper building a posting whose title and url carry the given tag. -/
def mkPosting (tag : String) : JobSearchResult :=
  { title := "Role " ++ tag, company := "Employer " ++ tag, location := "Remote",
    url := "https://jobs.workable.com/view/" ++ tag, description := "" }

/-- A raw extraction batch of 12 postings containing 2 duplicate urls
(`j1` and `j2` recur), i.e. 10 distinct urls. -/
def rawBatchExample : List JobSearchResult :=
  [mkPosting "j1", mkPosting "j2", mkPosting "j3", mkPosting "j1",
   mkPosting "j4", mkPosting "j5", mkPosting "j6", mkPosting "j7",
   mkPosting "j2", mkPosting "j8", mkPosting "j9", mkPosting "j10"]

/-- The 10 unique postings of `rawBatchExample`, first occurrences in order. -/
def dedupedBatchExample : List JobSearchResult :=
  [mkPosting "j1", mkPosting "j2", mkPosting "j3", mkPosting "j4",
   mkPosting "j5", mkPosting "j6", mkPosting "j7", mkPosting "j8",
   mkPosting "j9", mkPosting "j10"]

/-! ## Helper lemmas -/

/-- The ledger query of the duplicate check succeeds exactly when some row
matches the `(user_id, job_url)` pair — with any `status` whatsoever. -/
theorem hasAppliedToJob_iff (ledger : List AttemptRecord) (u url : String) :
    hasAppliedToJob ledger u url = true ↔
      ∃ r ∈ ledger, r.user_id = u ∧ r.job_url = url := by
  unfold hasAppliedToJob
  simp [List.length_pos_iff_exists_mem, List.mem_filter, and_assoc]

/-- Elements produced by `jsUniqueByUrlAux prev rest` share no url with `prev`. -/
theorem jsUniqueByUrlAux_not_in_prev {x : JobSearchResult} :
    ∀ {rest prev : List JobSearchResult}, x ∈ jsUniqueByUrlAux prev rest →
      prev.any (fun k => k.url == x.url) = false := by
  intro rest
  induction rest with
  | nil => intro prev hx; simp [jsUniqueByUrlAux] at hx
  | cons j rest ih =>
    intro prev hx
    unfold jsUniqueByUrlAux at hx
    by_cases h : prev.any (fun k => k.url == j.url) = true
    · simp only [h, if_true] at hx
      have := ih hx
      simp only [List.any_append] at this
      exact (Bool.or_eq_false_iff.mp this).1
    · simp only [h, if_false, Bool.not_eq_true] at hx
      rcases List.mem_cons.mp hx with rfl | hx2
      · exact Bool.not_eq_true _ |>.mp h
      · have := ih hx2
        simp only [List.any_append] at this
        exact (Bool.or_eq_false_iff.mp this).1

/-- The output of the url dedup has pairwise distinct urls. -/
theorem jsUniqueByUrlAux_pairwise :
    ∀ (rest prev : List JobSearchResult),
      List.Pairwise (fun a b => a.url ≠ b.url) (jsUniqueByUrlAux prev rest) := by
  intro rest
  induction rest with
  | nil => intro prev; simp [jsUniqueByUrlAux]
  | cons j rest ih =>
    intro prev
    unfold jsUniqueByUrlAux
    by_cases h : prev.any (fun k => k.url == j.url) = true
    · simp only [h, if_true]; exact ih _
    · simp only [h, if_false]
      refine List.Pairwise.cons ?_ (ih _)
      intro b hb
      have hfalse := jsUniqueByUrlAux_not_in_prev hb
      simp only [List.any_append, Bool.or_eq_false_iff] at hfalse
      have : (j.url == b.url) = false := by
        have h2 := hfalse.2
        simpa using h2
      exact fun hEq => by simp [hEq] at this

/-! ## Claim theorems -/

/-- C5: `filterJobs` is a pure function and, for every posting `P` and rule
set `R`, `filterJobs [P] R` excludes `P` iff at least one exclusion
predicate matches case-insensitively (blacklisted-employer substring in the
employer name, blacklisted keyword in the title+employer+description text,
or — when enabled — a clearance keyword in the posting text); the second
conjunct shows the kept/excluded decision is the symmetric boolean
disjunction of the three matchers, so the order of the checks cannot
affect the result. -/
theorem filterJobs_excludes_iff_some_predicate_matches :
    (∀ (P : JobSearchResult) (R : AutoApplyConfig),
      P ∉ filterJobs [P] R ↔
        (blacklistedCompanyMatch R P = true ∨ skipKeywordMatch R P = true ∨
          securityClearanceMatch R P = true)) ∧
    (∀ (P : JobSearchResult) (R : AutoApplyConfig),
      keepJob P R = !(blacklistedCompanyMatch R P || skipKeywordMatch R P ||
        securityClearanceMatch R P)) := by
  constructor
  · intro P R
    unfold filterJobs keepJob
    by_cases h1 : blacklistedCompanyMatch R P = true <;>
      by_cases h2 : skipKeywordMatch R P = true <;>
        by_cases h3 : securityClearanceMatch R P = true <;>
          simp [h1, h2, h3]
  · intro P R
    unfold keepJob
    by_cases h1 : blacklistedCompanyMatch R P = true <;>
      by_cases h2 : skipKeywordMatch R P = true <;>
        by_cases h3 : securityClearanceMatch R P = true <;>
          simp [h1, h2, h3]

/-- C6: discovery deduplicates by url (keeping first occurrences) and only
then truncates to at most 10: the output always has pairwise-distinct urls
and length at most 10, it equals the dedup followed by `take 10`, and the
concrete 12-element raw batch with 2 duplicate urls yields exactly the 10
unique postings. -/
theorem discovery_dedups_then_caps :
    (∀ l, List.Pairwise (fun a b => a.url ≠ b.url) (discoveryPostprocess l)) ∧
    (∀ l, (discoveryPostprocess l).length ≤ 10) ∧
    (∀ l, discoveryPostprocess l = (jsUniqueByUrl l).take 10) ∧
    rawBatchExample.length = 12 ∧
    discoveryPostprocess rawBatchExample = dedupedBatchExample ∧
    dedupedBatchExample.length = 10 := by
  refine ⟨?_, ?_, ?_, ?_, ?_, ?_⟩
  · intro l
    exact ((jsUniqueByUrlAux_pairwise l []).sublist (List.take_sublist 10 _))
  · intro l
    exact List.length_take_le 10 _
  · intro l
    rfl
  · rfl
  · decide
  · rfl

/-- C7: the Discovery Stage never throws to its caller: whenever the search /
extraction body fails (no listing container within all fallback timeouts, or
any other error), `searchJobs` returns `Except.ok []`; and on an initialized
page it never returns an `error` for any input. -/
theorem searchJobs_error_returns_empty (cfg : AutoApplyConfig) (env : SearchPageEnv)
    (h : ∃ e, searchJobsBody env = Except.error e) :
    searchJobs cfg true env = Except.ok [] ∧
      ∀ (cfg2 : AutoApplyConfig) (env2 : SearchPageEnv),
        ∃ jobs, searchJobs cfg2 true env2 = Except.ok jobs := by
  constructor
  · obtain ⟨e, he⟩ := h
    unfold searchJobs
    simp [he]
  · intro cfg2 env2
    unfold searchJobs
    cases hb : searchJobsBody env2 with
    | ok jobs => exact ⟨jobs, by simp [hb]⟩
    | error e => exact ⟨[], by simp [hb]⟩

/-- C7 witness: a search page where no listing container ever appears makes
the body fail, and `searchJobs` returns the empty list. -/
theorem searchJobs_error_returns_empty_witness :
    searchJobs exampleUser true envSearchAllTimeouts = Except.ok [] :=
  (searchJobs_error_returns_empty exampleUser envSearchAllTimeouts
    ⟨"Timeout waiting for job listing selectors", rfl⟩).1

/-- C1 counterexample: the ledger holds exactly one prior record for
`(u1, exampleJob.url)` and its outcome is `error`, yet `applyToJob`
returns the terminal outcome `duplicate` and performs no page action —
the attempt is suppressed, not re-attempted, refuting the claim that only
a prior `applied` outcome suppresses. -/
theorem duplicateCheck_suppresses_after_error_only_record :
    recPriorError.status = "error" ∧
    (applyToJob exampleJob exampleUser envHappy [recPriorError]).result.status = "duplicate" ∧
    (applyToJob exampleJob exampleUser envHappy [recPriorError]).actions = [] := by
  decide

/-- C1 (amended): the duplicate check suppresses the attempt exactly when
the ledger holds any prior record for `(user, url)`, regardless of that
record's outcome — a sole prior `error` record also yields `duplicate`. -/
theorem applyToJob_duplicate_iff_any_prior_record
    (job : JobSearchResult) (cfg : AutoApplyConfig) (env : ApplyPageEnv)
    (ledger : List AttemptRecord) :
    (applyToJob job cfg env ledger).result.status = "duplicate" ↔
      ∃ r ∈ ledger, r.user_id = cfg.id ∧ r.job_url = job.url := by
  rw [← hasAppliedToJob_iff]
  unfold applyToJob applyCatch
  split_ifs with h <;> simp_all

/-- C2 counterexample: an attempt that reaches the terminal state
`Duplicate` appends no AttemptRecord at all — the ledger after the attempt
is the unchanged one-row ledger, refuting "exactly one record per terminal
state" for the `Duplicate` case. -/
theorem duplicate_terminal_appends_no_record :
    (applyToJob exampleJob exampleUser envHappy [recPriorApplied]).result.status = "duplicate" ∧
    (applyToJob exampleJob exampleUser envHappy [recPriorApplied]).ledger = [recPriorApplied] := by
  decide

/-- C2 (amended): on the terminal states `Applied` and `Error`, exactly one
AttemptRecord for the attempt (matching user, url and terminal status) is
appended synchronously before the attempt returns; on `Duplicate` the
ledger is left unchanged and no record is appended.  The two cases are
exclusive on the terminal status, so a `Duplicate` outcome can never fall
into the appending branch: whenever the result's status is `duplicate` the
first disjunct must hold and the ledger is unchanged. -/
theorem applyToJob_ledger_change_characterization
    (job : JobSearchResult) (cfg : AutoApplyConfig) (env : ApplyPageEnv)
    (ledger : List AttemptRecord) :
    ((applyToJob job cfg env ledger).result.status = "duplicate" ∧
      (applyToJob job cfg env ledger).ledger = ledger) ∨
    ((applyToJob job cfg env ledger).result.status ≠ "duplicate" ∧
      ∃ r, (applyToJob job cfg env ledger).ledger = ledger ++ [r] ∧
        r.status = (applyToJob job cfg env ledger).result.status ∧
        r.user_id = cfg.id ∧ r.job_url = job.url) := by
  unfold applyToJob applyCatch logApplication
  split_ifs <;>
    first
      | exact Or.inl ⟨rfl, rfl⟩
      | exact Or.inr ⟨by simp, _, rfl, rfl, rfl, rfl⟩

/-- C3: when the ledger already holds an `applied` record for
`(user, posting.url)`, invoking the Application Stage yields the result
`duplicate` with no further side effects: the ledger is returned unchanged
and no page action (navigation, form interaction) is performed. -/
theorem applyToJob_prior_applied_is_pure_duplicate
    (job : JobSearchResult) (cfg : AutoApplyConfig) (env : ApplyPageEnv)
    (ledger : List AttemptRecord) (r : AttemptRecord)
    (hr : r ∈ ledger) (hu : r.user_id = cfg.id) (hurl : r.job_url = job.url)
    (_hs : r.status = "applied") :
    (applyToJob job cfg env ledger).result.status = "duplicate" ∧
    (applyToJob job cfg env ledger).ledger = ledger ∧
    (applyToJob job cfg env ledger).actions = [] := by
  have h : hasAppliedToJob ledger cfg.id job.url = true :=
    (hasAppliedToJob_iff ledger cfg.id job.url).mpr ⟨r, hr, hu, hurl⟩
  unfold applyToJob
  simp [h]

/-- C3 witness: re-running the attempt on a ledger whose only row is the
prior `applied` record gives `duplicate`, an unchanged ledger and no
page actions. -/
theorem applyToJob_prior_applied_is_pure_duplicate_witness :
    (applyToJob exampleJob exampleUser envHappy [recPriorApplied]).result.status = "duplicate" ∧
    (applyToJob exampleJob exampleUser envHappy [recPriorApplied]).ledger = [recPriorApplied] ∧
    (applyToJob exampleJob exampleUser envHappy [recPriorApplied]).actions = [] :=
  applyToJob_prior_applied_is_pure_duplicate exampleJob exampleUser envHappy
    [recPriorApplied] recPriorApplied (List.mem_singleton.mpr rfl) rfl rfl rfl

/-- C4 counterexample: on a page showing a form-level validation-error
indicator and no success indicator, `applyToJob` does not classify the
outcome as a validation error: it returns the generic
`No success indicator found after submission` error, refuting the claimed
validation-error check after submit. -/
theorem validation_error_page_yields_no_success_error :
    envValidationRejected.validationErrorPresent = true ∧
    (applyToJob exampleJob exampleUser envValidationRejected []).result.status = "error" ∧
    (applyToJob exampleJob exampleUser envValidationRejected []).result.errorMessage =
      "No success indicator found after submission" := by
  decide

/-- C4 (amended): after clicking submit, `applyToJob` checks only for a
success indicator — its outcome is entirely independent of the
validation-error indicator (first conjunct), and absence of the success
indicator yields `Error("No success indicator found after submission")`
(third conjunct); the validation-error check exists only in the helper
`improvedSubmit`, which no caller invokes (second conjunct shows it would
report failure without resubmitting when the indicator is present). -/
theorem submit_ignores_validation_indicator :
    (∀ (job : JobSearchResult) (cfg : AutoApplyConfig) (ledger : List AttemptRecord)
        (env : ApplyPageEnv) (v : Bool),
      applyToJob job cfg { env with validationErrorPresent := v } ledger =
        applyToJob job cfg env ledger) ∧
    (∀ env : ApplyPageEnv, env.submitButtonFound = true →
      env.validationErrorPresent = true → improvedSubmit env = false) ∧
    (∀ (job : JobSearchResult) (cfg : AutoApplyConfig) (ledger : List AttemptRecord)
        (env : ApplyPageEnv),
      hasAppliedToJob ledger cfg.id job.url = false →
      env.navigationSucceeds = true → env.applyButtonFound = true →
      env.formAppears = true → env.fillSucceeds = true →
      env.submitButtonFound = true → env.successIndicatorPresent = false →
      env.attemptExceedsTimeout = false →
      (applyToJob job cfg env ledger).result.status = "error" ∧
      (applyToJob job cfg env ledger).result.errorMessage =
        "No success indicator found after submission") := by
  refine ⟨?_, ?_, ?_⟩
  · intro job cfg ledger env v
    cases env
    rfl
  · intro env h1 h2
    unfold improvedSubmit
    simp [h1, h2]
  · intro job cfg ledger env hdup hnav hbtn hform hfill hsubmit hsucc htime
    unfold applyToJob applyCatch
    simp [hdup, hnav, hbtn, hform, hfill, hsubmit, hsucc, htime]

/-- C4 witness: concrete instances for each hypothesis-bearing conjunct of
the amended theorem. -/
theorem submit_ignores_validation_indicator_witness :
    improvedSubmit envValidationRejected = false ∧
    (applyToJob exampleJob exampleUser envValidationRejected []).result.status = "error" ∧
    (applyToJob exampleJob exampleUser envValidationRejected []).result.errorMessage =
      "No success indicator found after submission" :=
  ⟨submit_ignores_validation_indicator.2.1 envValidationRejected rfl rfl,
   (submit_ignores_validation_indicator.2.2 exampleJob exampleUser []
      envValidationRejected rfl rfl rfl rfl rfl rfl rfl rfl).1,
   (submit_ignores_validation_indicator.2.2 exampleJob exampleUser []
      envValidationRejected rfl rfl rfl rfl rfl rfl rfl rfl).2⟩

/-- C8: the phone field population is independent of the user profile — any
two profiles yield identical phone-step behaviour; whatever value is
written is the fixed placeholder `415-555-2671`; whatever country is
selected is the fixed United States (+1); and when the page cooperates the
step selects the United States and writes the placeholder. -/
theorem phone_step_profile_independent :
    (∀ (cfg1 cfg2 : AutoApplyConfig) (env : PhonePageEnv),
      phoneFieldStep cfg1 env = phoneFieldStep cfg2 env) ∧
    (∀ (cfg : AutoApplyConfig) (env : PhonePageEnv),
      (phoneFieldStep cfg env).filledPhone = none ∨
        (phoneFieldStep cfg env).filledPhone = some "415-555-2671") ∧
    (∀ (cfg : AutoApplyConfig) (env : PhonePageEnv),
      (phoneFieldStep cfg env).selectedCountry = none ∨
        (phoneFieldStep cfg env).selectedCountry = some "United States (+1)") ∧
    (∀ (cfg : AutoApplyConfig) (env : PhonePageEnv),
      env.countryFlowWorks = true → env.phoneInputFound = true →
        phoneFieldStep cfg env =
          { selectedCountry := some "United States (+1)",
            filledPhone := some "415-555-2671" }) := by
  refine ⟨fun _ _ _ => rfl, ?_, ?_, ?_⟩
  · intro cfg env
    unfold phoneFieldStep handlePhoneInput
    by_cases h1 : env.countryFlowWorks = true <;>
      by_cases h2 : env.phoneInputFound = true <;> simp [h1, h2]
  · intro cfg env
    unfold phoneFieldStep handlePhoneInput
    by_cases h1 : env.countryFlowWorks = true <;>
      by_cases h2 : env.phoneInputFound = true <;> simp [h1, h2]
  · intro cfg env h1 h2
    unfold phoneFieldStep handlePhoneInput
    simp [h1, h2]

/-- C8 witness: two profiles differing in phone and country produce the
same phone-step outcome on a cooperating page, namely the fixed United
States selection and the fixed placeholder number. -/
theorem phone_step_profile_independent_witness :
    phoneFieldStep exampleUser { countryFlowWorks := true, phoneInputFound := true } =
      phoneFieldStep exampleUser2 { countryFlowWorks := true, phoneInputFound := true } ∧
    phoneFieldStep exampleUser { countryFlowWorks := true, phoneInputFound := true } =
      { selectedCountry := some "United States (+1)",
        filledPhone := some "415-555-2671" } :=
  ⟨phone_step_profile_independent.1 exampleUser exampleUser2
      { countryFlowWorks := true, phoneInputFound := true },
   phone_step_profile_independent.2.2.2 exampleUser
      { countryFlowWorks := true, phoneInputFound := true } rfl rfl⟩

/-- C9: the `SIGINT` / `SIGTERM` handlers exit the process without closing
the browser session: each handler performs only logging, the no-op
`stopScheduler`, and `process.exit(0)`; from a state with an open browser
session the session is still open when `exit` runs — contradicting the
requirement that a hard interrupt close the active browser session before
exiting. -/
theorem sigint_handler_exits_without_closing_browser :
    WorkerAction.processExit 0 ∈ sigintHandler ∧
    WorkerAction.closeBrowser ∉ sigintHandler ∧
    browserOpenAfter true sigintHandler = true ∧
    WorkerAction.processExit 0 ∈ sigtermHandler ∧
    WorkerAction.closeBrowser ∉ sigtermHandler ∧
    browserOpenAfter true sigtermHandler = true := by
  decide

/-- C10: discovery output is independent of the user's configured search
preferences: the search URL is built from the fixed terms and fixed
location only, so it is the same literal URL for every configuration, and
`searchJobs` as a whole never reads its `userConfig` argument. -/
theorem discovery_query_config_independent :
    (∀ c1 c2 : AutoApplyConfig, buildSearchUrl c1 = buildSearchUrl c2) ∧
    (∀ c : AutoApplyConfig, buildSearchUrl c =
      "https://jobs.workable.com/search?q=software%20engineer%20developer%20programmer&location=Remote") ∧
    (∀ (c1 c2 : AutoApplyConfig) (init : Bool) (env : SearchPageEnv),
      searchJobs c1 init env = searchJobs c2 init env) := by
  refine ⟨fun _ _ => rfl, fun _ => ?_, fun _ _ _ _ => rfl⟩
  unfold buildSearchUrl
  decide
